import Mathlib

/-
Verification development for the netdata health engine core
(src/health/health.c). The definitions below are a shallow embedding of
the data model and the operations of that file: statuses, calculated
numbers, the alarm-log entry, the dispatcher (health_alarm_execute),
the log scan and eviction (health_alarm_log_process), the runnability
predicate (rrdcalc_isrunnable), the decide phase and the repeating
phase of health_main, the silencer matcher (check_silenced), and the
silencer-file size gate (health_silencers_init).
-/

namespace Netdata

/-- Modelled from the spec: the RRDCALC_STATUS enumeration is declared in
a header outside src/. The spec lists the statuses undefined,
uninitialized, removed, clear, warning, critical (plus the raised value
produced by sub-expression evaluation) and relies on the numeric order
removed < undefined < uninitialized < clear < raised < warning < critical
for comparisons such as new_status < clear. -/
inductive RRDCALC_STATUS where
  | removed
  | undefined
  | uninitialized
  | clear
  | raised
  | warning
  | critical
deriving DecidableEq, Repr

/-- Numeric code of a status, as in the C enumeration
(REMOVED = -2, UNDEFINED = -1, UNINITIALIZED = 0, CLEAR = 1,
RAISED = 2, WARNING = 3, CRITICAL = 4). -/
def RRDCALC_STATUS.code : RRDCALC_STATUS → Int
  | .removed => -2
  | .undefined => -1
  | .uninitialized => 0
  | .clear => 1
  | .raised => 2
  | .warning => 3
  | .critical => 4

/-- A calculated_number (a C double) abstracted to the cases the health
code distinguishes: NaN, positive or negative infinity, or a finite
value (carried as a rational). -/
inductive CNum where
  | nan
  | posInf
  | negInf
  | finite (q : ℚ)
deriving DecidableEq, Repr

/-- Embedding of rrdcalc_value2status (health.c lines 166-170):
NaN or infinite gives UNDEFINED, a non-zero finite number gives RAISED,
zero gives CLEAR. -/
def rrdcalc_value2status : CNum → RRDCALC_STATUS
  | .nan => .undefined
  | .posInf => .undefined
  | .negInf => .undefined
  | .finite q => if q ≠ 0 then .raised else .clear

/-- Embedding of the final-status composition of the decide phase of
health_main (health.c lines 778-805): status starts UNDEFINED; the
switch on warning_status maps CLEAR to CLEAR and RAISED to WARNING; the
switch on critical_status maps RAISED to CRITICAL and CLEAR to CLEAR
only when the status is still UNDEFINED. -/
def decide_status (warning_status critical_status : RRDCALC_STATUS) : RRDCALC_STATUS :=
  let s1 : RRDCALC_STATUS :=
    match warning_status with
    | .clear => .clear
    | .raised => .warning
    | _ => .undefined
  match critical_status with
  | .clear => if s1 = .undefined then .clear else s1
  | .raised => .critical
  | _ => s1

/-- Flag bits of an alarm-log entry (HEALTH_ENTRY_FLAG_*), one Boolean
field per bit used by health.c. -/
structure EntryFlags where
  processed : Bool
  updated : Bool
  exec_run : Bool
  exec_failed : Bool
  no_clear_notification : Bool
  silenced : Bool
deriving DecidableEq, Repr

/-- An ALARM_ENTRY of the health log, with the fields health.c reads or
writes. The log itself is a List with the newest entry first, matching
the head-insertion singly-linked chain. The field repeating abstracts
alarm_entry_isrepeating(host, ae), declared outside src/: whether the
alarm the entry belongs to is currently marked repeating on the host. -/
structure ALARM_ENTRY where
  unique_id : Nat
  alarm_id : Nat
  alarm_event_id : Nat
  when : Int
  duration : Int
  old_value : CNum
  new_value : CNum
  old_status : RRDCALC_STATUS
  new_status : RRDCALC_STATUS
  delay : Int
  delay_up_to_timestamp : Int
  last_repeat : Int
  flags : EntryFlags
  exec_code : Int
  exec_run_timestamp : Int
  repeating : Bool
deriving DecidableEq, Repr

/-- Result of health_alarm_execute on one entry: the updated entry, whether
the notifier spawn point was reached, and whether the entry was persisted
(health_alarm_log_save). -/
structure ExecResult where
  ae : ALARM_ENTRY
  notified : Bool
  persisted : Bool
deriving DecidableEq, Repr

/-- Embedding of the search loop of health_alarm_execute (health.c lines
194-199): the nearest older entry with the same alarm_id that has the
exec-run flag set. The list holds the entries older than the current one,
nearest first (the ae.next chain). -/
def find_prev_exec_run (alarm_id : Nat) : List ALARM_ENTRY → Option ALARM_ENTRY
  | [] => none
  | t :: rest =>
    if t.alarm_id = alarm_id ∧ t.flags.exec_run = true then some t
    else find_prev_exec_run alarm_id rest

/-- Embedding of health_alarm_execute (health.c lines 174-303). The entry
is marked processed up front; internal statuses (below clear), the
no-clear-notification suppression, the same-status suppression against the
nearest older exec-run entry, the first-event-is-clear suppression, and the
silenced suppression each return without notifying; otherwise exec-run and
exec_run_timestamp are set and the notifier is spawned. The spawn argument
stands for the outcome of mypopen/mypclose: none means popen failed (no
exit code is recorded), some code means the notifier ran and returned code.
Every path persists the entry. -/
def health_alarm_execute (ae : ALARM_ENTRY) (older : List ALARM_ENTRY)
    (now : Int) (spawn : Option Int) : ExecResult :=
  let ae1 := { ae with flags := { ae.flags with processed := true } }
  if ae1.new_status.code < RRDCALC_STATUS.clear.code then
    ⟨ae1, false, true⟩
  else if ae1.new_status.code ≤ RRDCALC_STATUS.clear.code ∧
      ae1.flags.no_clear_notification = true then
    ⟨ae1, false, true⟩
  else
    let suppress : Bool :=
      if ae1.flags.no_clear_notification = true then false
      else
        match find_prev_exec_run ae1.alarm_id older with
        | some t => t.new_status = ae1.new_status
        | none => ae1.new_status = RRDCALC_STATUS.clear
    if suppress = true then ⟨ae1, false, true⟩
    else if ae1.flags.silenced = true then ⟨ae1, false, true⟩
    else
      let ae2 := { ae1 with
        flags := { ae1.flags with exec_run := true },
        exec_run_timestamp := now }
      match spawn with
      | none => ⟨ae2, true, true⟩
      | some code =>
          ⟨{ ae2 with
              exec_code := code,
              flags := { ae2.flags with
                exec_failed := if code ≠ 0 then true else ae2.flags.exec_failed } },
            true, true⟩

/-- Default entry flags: all bits cleared. -/
def flags0 : EntryFlags :=
  { processed := false, updated := false, exec_run := false,
    exec_failed := false, no_clear_notification := false, silenced := false }

/-- Default alarm-log entry used as the base for concrete test entries. -/
def entry0 : ALARM_ENTRY :=
  { unique_id := 0, alarm_id := 0, alarm_event_id := 0, when := 0,
    duration := 0, old_value := CNum.finite 0, new_value := CNum.finite 0,
    old_status := RRDCALC_STATUS.clear, new_status := RRDCALC_STATUS.clear,
    delay := 0, delay_up_to_timestamp := 0, last_repeat := 0,
    flags := flags0, exec_code := 0, exec_run_timestamp := 0,
    repeating := false }

/-- A chart (RRDSET) with the fields health.c reads: identity strings used
by the silencer matcher, the obsolete/enabled flags, collection counters,
the chart update period, and the retention bounds returned by
rrdset_first_entry_t and rrdset_last_entry_t. -/
structure RRDSET where
  context : Option String
  family : Option String
  obsolete : Bool
  enabled : Bool
  last_collected_time : Int
  counter_done : Nat
  update_every : Int
  first_entry_t : Int
  last_entry_t : Int
deriving DecidableEq, Repr

/-- Flag bits of RRDCALC.rrdcalc_flags used by health.c, one Boolean field
per bit. -/
structure RcFlags where
  runnable : Bool
  disabled : Bool
  silenced : Bool
  db_error : Bool
  db_nan : Bool
  calc_error : Bool
  warn_error : Bool
  crit_error : Bool
deriving DecidableEq, Repr

/-- Modelled from the spec: an EVAL_EXPRESSION is consumed as an opaque
evaluator returning ok/failure plus a result value. An expression slot of
an alarm is either absent (none), or an expression whose evaluation this
tick fails (some none), or one that yields a value (some (some v)). -/
abbrev ExprSlot := Option (Option CNum)

/-- An alarm instance (RRDCALC) with the fields health.c reads or writes
in the claims under study. The db_lookup field stands for
RRDCALC_HAS_DB_LOOKUP(rc) (declared outside src/: whether database-lookup
parameters are configured); no_clear_notification stands for the
RRDCALC_FLAG_NO_CLEAR_NOTIFICATION bit of rc.options. -/
structure RRDCALC where
  id : Nat
  next_event_id : Nat
  name : Option String
  chart : Option String
  rrdset : Option RRDSET
  update_every : Int
  next_update : Int
  last_updated : Int
  value : CNum
  old_value : CNum
  status : RRDCALC_STATUS
  old_status : RRDCALC_STATUS
  last_status_change : Int
  db_lookup : Bool
  after : Int
  before : Int
  warning : ExprSlot
  critical : ExprSlot
  rrdcalc_flags : RcFlags
  no_clear_notification : Bool
  delay_up_duration : Int
  delay_down_duration : Int
  delay_max_duration : Int
  delay_multiplier : ℚ
  delay_up_current : Int
  delay_down_current : Int
  delay_last : Int
  delay_up_to_timestamp : Int
  warn_repeat_every : Int
  crit_repeat_every : Int
  last_repeat : Int
deriving DecidableEq, Repr

/-- Default chart used as the base for concrete test charts: enabled, not
obsolete, collected twice, with a wide retention window. -/
def chart0 : RRDSET :=
  { context := some "ctx", family := some "fam", obsolete := false,
    enabled := true, last_collected_time := 1, counter_done := 2,
    update_every := 1, first_entry_t := 0, last_entry_t := 1000000 }

/-- Default rrdcalc flags: all bits cleared. -/
def rcflags0 : RcFlags :=
  { runnable := false, disabled := false, silenced := false,
    db_error := false, db_nan := false, calc_error := false,
    warn_error := false, crit_error := false }

/-- Default alarm instance used as the base for concrete test alarms. -/
def rc0 : RRDCALC :=
  { id := 1, next_event_id := 1, name := some "alarm", chart := none,
    rrdset := none, update_every := 1, next_update := 0, last_updated := 0,
    value := CNum.finite 0, old_value := CNum.finite 0,
    status := RRDCALC_STATUS.undefined, old_status := RRDCALC_STATUS.undefined,
    last_status_change := 0, db_lookup := false, after := 0, before := 0,
    warning := none, critical := none, rrdcalc_flags := rcflags0,
    no_clear_notification := false, delay_up_duration := 0,
    delay_down_duration := 0, delay_max_duration := 0, delay_multiplier := 1,
    delay_up_current := 0, delay_down_current := 0, delay_last := 0,
    delay_up_to_timestamp := 0, warn_repeat_every := 0,
    crit_repeat_every := 0, last_repeat := 0 }

/-- Embedding of rrdcalc_isrunnable (health.c lines 376-438): the checks
in source order. Only the next_update-in-the-future branch narrows
next_run; the stale-retention half of the window check
(now - update_every > last) is commented out in the source and therefore
absent here; the database-lookup check tests the single point
now + before + after against the retention bounds padded by the chart
update period. Returns the verdict together with the possibly narrowed
next_run. -/
def rrdcalc_isrunnable (rc : RRDCALC) (now : Int) (next_run : Int) : Bool × Int :=
  match rc.rrdset with
  | none => (false, next_run)
  | some st =>
    if now < rc.next_update then
      (false, if rc.next_update < next_run then rc.next_update else next_run)
    else if rc.update_every = 0 then (false, next_run)
    else if st.obsolete = true then (false, next_run)
    else if st.enabled = false then (false, next_run)
    else if st.last_collected_time = 0 ∨ st.counter_done < 2 then (false, next_run)
    else if now + st.update_every < st.first_entry_t then (false, next_run)
    else if rc.db_lookup = true then
      if now + rc.before + rc.after + st.update_every < st.first_entry_t ∨
          st.last_entry_t < now + rc.before + rc.after - st.update_every then
        (false, next_run)
      else (true, next_run)
    else (true, next_run)

/-- Modelled from the spec: rrdcalc_isrepeating is declared outside src/.
The spec (section 3 and the glossary) marks an alarm repeating when a
warning or critical repetition period is configured. -/
def rrdcalc_isrepeating (rc : RRDCALC) : Bool :=
  if 0 < rc.warn_repeat_every ∨ 0 < rc.crit_repeat_every then true else false

/-- Modelled from the spec: health_create_alarm_entry is declared outside
src/ (the spec, section 3, lists the entry fields). It fills a fresh
entry from its arguments, with the processed/updated/exec bookkeeping
cleared, the caller-supplied no-clear-notification and silenced flag
bits, and delay_up_to_timestamp = when + delay. The unique id is drawn
from the host's monotonic counter, passed here as uid; the repeating
field mirrors whether the owning alarm is currently marked repeating. -/
def health_create_alarm_entry (uid alarm_id alarm_event_id : Nat)
    (when duration : Int) (old_value new_value : CNum)
    (old_status new_status : RRDCALC_STATUS) (delay : Int)
    (no_clear silenced repeating : Bool) : ALARM_ENTRY :=
  { unique_id := uid, alarm_id := alarm_id, alarm_event_id := alarm_event_id,
    when := when, duration := duration, old_value := old_value,
    new_value := new_value, old_status := old_status, new_status := new_status,
    delay := delay, delay_up_to_timestamp := when + delay, last_repeat := 0,
    flags := { flags0 with no_clear_notification := no_clear, silenced := silenced },
    exec_code := 0, exec_run_timestamp := 0, repeating := repeating }

/-- Result of the repeating-alarms loop body of health_main for one alarm:
the updated alarm, the entry handed to the dispatcher (none when no
repetition was due), whether the entry was linked into the persistent log,
and whether it was freed afterwards. -/
structure RepeatResult where
  rc : RRDCALC
  dispatched : Option ALARM_ENTRY
  linked : Bool
  freed : Bool
deriving DecidableEq, Repr

/-- Embedding of the repeating-alarms loop body of health_main (health.c
lines 869-894) for one alarm: a repeating alarm in warning selects
warn_repeat_every, in critical crit_repeat_every, otherwise 0; when the
selected period is positive and last_repeat + period has passed,
last_repeat is set to now, an entry is synthesized with
old_status := rc.old_status and new_status := rc.status, its last_repeat
copied from the alarm, and it is handed to the dispatcher without being
linked into the log, then freed. The uid argument stands for the unique
id the entry constructor draws. -/
def health_main_repeat_step (rc : RRDCALC) (now : Int) (uid : Nat) : RepeatResult :=
  let repeat_every : Int :=
    if rrdcalc_isrepeating rc = true then
      if rc.status = RRDCALC_STATUS.warning then rc.warn_repeat_every
      else if rc.status = RRDCALC_STATUS.critical then rc.crit_repeat_every
      else 0
    else 0
  if 0 < repeat_every ∧ rc.last_repeat + repeat_every ≤ now then
    let rc2 := { rc with last_repeat := now, next_event_id := rc.next_event_id + 1 }
    let ae := health_create_alarm_entry uid rc.id rc.next_event_id now
      (now - rc.last_status_change) rc.old_value rc.value rc.old_status rc.status
      rc.delay_last rc.no_clear_notification rc.rrdcalc_flags.silenced
      (rrdcalc_isrepeating rc)
    ⟨rc2, some { ae with last_repeat := rc2.last_repeat }, false, true⟩
  else ⟨rc, none, false, false⟩

/-- Truncating conversion of a rational to an integer, as the C cast
(int)(x) applied to the delay products. -/
def cIntOfRat (q : ℚ) : Int := Int.tdiv q.num q.den

/-- Warning sub-status of an alarm for the tick: the value2status of the
warning expression result when it exists and evaluates, undefined
otherwise. -/
def warn_status_of (rc : RRDCALC) : RRDCALC_STATUS :=
  match rc.warning with
  | some (some v) => rrdcalc_value2status v
  | _ => RRDCALC_STATUS.undefined

/-- Critical sub-status of an alarm for the tick, as warn_status_of. -/
def crit_status_of (rc : RRDCALC) : RRDCALC_STATUS :=
  match rc.critical with
  | some (some v) => rrdcalc_value2status v
  | _ => RRDCALC_STATUS.undefined

/-- The rrdcalc_flags after the decide phase evaluated the warning and
critical expressions: each present expression refreshes its error bit
(set on failure, cleared on success); absent expressions leave the bit
untouched. -/
def eval_flags_of (rc : RRDCALC) : RcFlags :=
  let f1 : RcFlags :=
    match rc.warning with
    | none => rc.rrdcalc_flags
    | some none => { rc.rrdcalc_flags with warn_error := true }
    | some (some _) => { rc.rrdcalc_flags with warn_error := false }
  match rc.critical with
  | none => f1
  | some none => { f1 with crit_error := true }
  | some (some _) => { f1 with crit_error := false }

/-- Result of one iteration of the decide loop of health_main for one
alarm: the updated alarm, the log entry appended (none when nothing was
appended), and the possibly narrowed next_run of the main loop. -/
structure DecideResult where
  rc : RRDCALC
  entry : Option ALARM_ENTRY
  next_run : Int
deriving DecidableEq, Repr

/-- Embedding of one iteration of the decide loop of health_main (health.c
lines 716-865) for one alarm: skipped unless flagged runnable and not
disabled; evaluates the warning and critical expressions (refreshing the
warn-error and crit-error bits), composes the status, and on a status
change applies the hysteresis update, creates a log entry when the alarm
is not repeating, and rolls old_status, status and last_status_change;
in every non-skipped case last_updated and next_update are refreshed and
next_run narrowed to the alarm's next update. The uid argument stands for
the unique id drawn when an entry is created. -/
def health_main_decide_step (rc : RRDCALC) (now next_run : Int) (uid : Nat) :
    DecideResult :=
  if rc.rrdcalc_flags.runnable = false then ⟨rc, none, next_run⟩
  else if rc.rrdcalc_flags.disabled = true then ⟨rc, none, next_run⟩
  else
    let status := decide_status (warn_status_of rc) (crit_status_of rc)
    let rc1 := { rc with rrdcalc_flags := eval_flags_of rc }
    if status ≠ rc1.status then
      let rc2 :=
        if rc1.delay_up_to_timestamp < now then
          { rc1 with
            delay_up_current := rc1.delay_up_duration,
            delay_down_current := rc1.delay_down_duration,
            delay_last := 0,
            delay_up_to_timestamp := 0 }
        else
          let up := cIntOfRat ((rc1.delay_up_current : ℚ) * rc1.delay_multiplier)
          let up2 := if rc1.delay_max_duration < up then rc1.delay_max_duration else up
          let dn := cIntOfRat ((rc1.delay_down_current : ℚ) * rc1.delay_multiplier)
          let dn2 := if rc1.delay_max_duration < dn then rc1.delay_max_duration else dn
          { rc1 with delay_up_current := up2, delay_down_current := dn2 }
      let delay := if rc2.status.code < status.code then rc2.delay_up_current
                   else rc2.delay_down_current
      let rc3 := { rc2 with delay_last := delay, delay_up_to_timestamp := now + delay }
      let step : Option ALARM_ENTRY × RRDCALC :=
        if rrdcalc_isrepeating rc3 = false then
          (some (health_create_alarm_entry uid rc3.id rc3.next_event_id now
              (now - rc3.last_status_change) rc3.old_value rc3.value rc3.status
              status rc3.delay_last rc3.no_clear_notification
              rc3.rrdcalc_flags.silenced false),
           { rc3 with next_event_id := rc3.next_event_id + 1 })
        else (none, rc3)
      let rc4 := { step.2 with
        last_status_change := now,
        old_status := step.2.status,
        status := status }
      let rc5 := { rc4 with
        last_updated := now,
        next_update := now + rc4.update_every }
      ⟨rc5, step.1,
        if rc5.next_update < next_run then rc5.next_update else next_run⟩
    else
      let rc5 := { rc1 with
        last_updated := now,
        next_update := now + rc1.update_every }
      ⟨rc5, none,
        if rc5.next_update < next_run then rc5.next_update else next_run⟩

/-- Decrement of host.health_log.count, an unsigned int, with the C
wrap-around. -/
def countDec (c : Nat) : Nat := (c + 4294967295) % 4294967296

/-- Result of the eviction part of health_alarm_log_process: the remaining
chain, the count field, and one list element per call of
health_alarm_log_free_one_nochecks_nounlink, holding the freed entry's
unique_id in call order. -/
structure EvictResult where
  log : List ALARM_ENTRY
  count : Nat
  frees : List Nat
deriving DecidableEq, Repr

/-- Embedding of the free loop of health_alarm_log_process (health.c lines
358-371) over the detached tail: every entry is freed once; a
non-repeating entry is freed a second time and count decremented; then
count is decremented again for every entry. -/
def evict_free_loop : List ALARM_ENTRY → Nat → Nat × List Nat
  | [], c => (c, [])
  | ae :: rest, c =>
    let step : Nat × List Nat :=
      if ae.repeating = false then (countDec c, [ae.unique_id, ae.unique_id])
      else (c, [ae.unique_id])
    let r := evict_free_loop rest (countDec step.1)
    (r.1, step.2 ++ r.2)

/-- Embedding of the eviction part of health_alarm_log_process (health.c
lines 343-373): nothing happens while count is at most max; otherwise the
walk keeps max * 2 / 3 entries from the head and detaches the remainder
for the free loop; when the walk kept nothing (max * 2 / 3 = 0) or
consumed the whole chain, nothing is detached. -/
def health_alarm_log_evict (log : List ALARM_ENTRY) (count max : Nat) : EvictResult :=
  if count ≤ max then ⟨log, count, []⟩
  else
    let k := max * 2 / 3
    if k = 0 ∨ log.length ≤ k then ⟨log, count, []⟩
    else
      let r := evict_free_loop (log.drop k) count
      ⟨log.take k, r.1, r.2⟩

/-- One pass of the dispatch-scan walk of health_alarm_log_process
(health.c lines 323-336) over the remaining chain, carrying the running
first_waiting value: an entry whose unique_id has fallen below the cursor
stops the walk; a non-repeating entry that is neither processed nor
updated lowers first_waiting to its unique_id and, when its delay has
expired, is handed to the dispatcher. The spawn argument gives the
notifier outcome by unique_id. -/
def scan_go (now : Int) (cursor : Nat) (spawn : Nat → Option Int) :
    List ALARM_ENTRY → Nat → List ALARM_ENTRY × Nat
  | [], fw => ([], fw)
  | ae :: rest, fw =>
    if ae.unique_id < cursor then (ae :: rest, fw)
    else if (!ae.repeating && !ae.flags.processed && !ae.flags.updated) = true then
      let fw2 := min fw ae.unique_id
      if ae.delay_up_to_timestamp ≤ now then
        let ae2 := (health_alarm_execute ae rest now (spawn ae.unique_id)).ae
        let r := scan_go now cursor spawn rest fw2
        (ae2 :: r.1, r.2)
      else
        let r := scan_go now cursor spawn rest fw2
        (ae :: r.1, r.2)
    else
      let r := scan_go now cursor spawn rest fw
      (ae :: r.1, r.2)

/-- Initial first_waiting value of the dispatch scan: the head unique_id,
or 0 on an empty log (health.c line 317). -/
def scan_init_fw : List ALARM_ENTRY → Nat
  | [] => 0
  | ae :: _ => ae.unique_id

/-- Embedding of the dispatch-scan part of health_alarm_log_process
(health.c lines 316-341): walk the log from the head while unique_id is
at least the cursor, dispatch pending entries whose delay expired, and
set the cursor to the resulting first_waiting. Returns the updated log
and the new cursor value of health_last_processed_id. -/
def health_alarm_log_scan (log : List ALARM_ENTRY) (cursor : Nat) (now : Int)
    (spawn : Nat → Option Int) : List ALARM_ENTRY × Nat :=
  scan_go now cursor spawn log (scan_init_fw log)

/-- Unique ids of the non-repeating entries in the scanned range
(unique_id at least the cursor, stopping at the first entry below it)
that are pending: neither processed nor updated. -/
def scanned_pending_ids (cursor : Nat) (log : List ALARM_ENTRY) : List Nat :=
  ((log.takeWhile (fun ae => decide (cursor ≤ ae.unique_id))).filter
    (fun ae => !ae.repeating && !ae.flags.processed && !ae.flags.updated)).map
    (fun ae => ae.unique_id)

/-- Unique ids of the pending entries of a log: neither processed nor
updated. -/
def pending_ids (log : List ALARM_ENTRY) : List Nat :=
  (log.filter (fun ae => !ae.flags.processed && !ae.flags.updated)).map
    (fun ae => ae.unique_id)

/-- The SILENCE_TYPE enumeration: STYPE_NONE,
STYPE_SILENCE_NOTIFICATIONS, STYPE_DISABLE_ALARMS. -/
inductive SILENCE_TYPE where
  | stype_none
  | silence_notifications
  | disable_alarms
deriving DecidableEq, Repr

/-- A silencer rule: five optional patterns. A pattern is abstracted as
the predicate simple_pattern_matches applies to a candidate string (the
pattern matcher is outside src/). -/
structure SILENCER where
  alarms_pattern : Option (String → Bool)
  charts_pattern : Option (String → Bool)
  contexts_pattern : Option (String → Bool)
  hosts_pattern : Option (String → Bool)
  families_pattern : Option (String → Bool)

/-- The silencer store: the rule list, the global stype, and the
all_alarms switch. -/
structure SILENCERS where
  silencers : List SILENCER
  stype : SILENCE_TYPE
  all_alarms : Bool

/-- One conjunct of the silencer match of check_silenced (health.c lines
472-478): an absent pattern passes; a present pattern requires the field
to be present and to match. -/
def silencer_field_match : Option (String → Bool) → Option String → Bool
  | none, _ => true
  | some _, none => false
  | some p, some v => p v

/-- The five-way conjunction of check_silenced for one silencer; the
context and family fields are read through the linked chart, so they are
absent when the alarm has no chart. -/
def silencer_matches (s : SILENCER) (rc : RRDCALC) (host : Option String) : Bool :=
  silencer_field_match s.alarms_pattern rc.name &&
  silencer_field_match s.contexts_pattern (rc.rrdset.bind (fun st => st.context)) &&
  silencer_field_match s.hosts_pattern host &&
  silencer_field_match s.charts_pattern rc.chart &&
  silencer_field_match s.families_pattern (rc.rrdset.bind (fun st => st.family))

/-- The rule walk of check_silenced: the store's stype for the first
matching silencer, STYPE_NONE when none matches. -/
def check_silenced_go (rc : RRDCALC) (host : Option String)
    (stype : SILENCE_TYPE) : List SILENCER → SILENCE_TYPE
  | [] => SILENCE_TYPE.stype_none
  | s :: rest =>
    if silencer_matches s rc host = true then stype
    else check_silenced_go rc host stype rest

/-- Embedding of check_silenced (health.c lines 466-496). -/
def check_silenced (rc : RRDCALC) (host : Option String)
    (silencers : SILENCERS) : SILENCE_TYPE :=
  check_silenced_go rc host silencers.stype silencers.silencers

/-- Modelled from the spec: HEALTH_SILENCERS_MAX_FILE_LEN is declared in
a header outside src/; the spec uses it as the size bound of the silencer
file (upstream value 10000). -/
def HEALTH_SILENCERS_MAX_FILE_LEN : Nat := 10000

/-- Outcome of health_silencers_init: the file was parsed; or it was
rejected for its size; or fopen failed; or stat failed (file absent). In
every case the function returns and the engine continues. -/
inductive SilencersInitResult where
  | parsed
  | sizeError
  | openError
  | statError
deriving DecidableEq, Repr

/-- Embedding of health_silencers_init (health.c lines 47-72): when stat
succeeds, a size that is non-zero and strictly below
HEALTH_SILENCERS_MAX_FILE_LEN lets the file be opened and parsed; any
other size logs the out-of-range error and skips the parse; a failed
fopen or stat logs and returns. -/
def health_silencers_init (fileExists : Bool) (size : Int) (openOk : Bool) :
    SilencersInitResult :=
  if fileExists = true then
    if size ≠ 0 ∧ size < (HEALTH_SILENCERS_MAX_FILE_LEN : Int) then
      if openOk = true then SilencersInitResult.parsed
      else SilencersInitResult.openError
    else SilencersInitResult.sizeError
  else SilencersInitResult.statError

/-- Concrete repeating alarm, currently warning, whose old_status is the
clear it transitioned from. -/
def rc_repeat_ex : RRDCALC :=
  { rc0 with
    status := RRDCALC_STATUS.warning,
    old_status := RRDCALC_STATUS.clear,
    warn_repeat_every := 5 }

/-- Concrete runnable alarm whose warning expression fails to evaluate
this tick while its composed status stays undefined. -/
def rc_evalfail_ex : RRDCALC :=
  { rc0 with
    rrdcalc_flags := { rcflags0 with runnable := true },
    warning := some none }

/-- Concrete alarm on a stale chart: the chart stopped collecting at time
50 while now is 100, every other runnability condition holding. -/
def rc_stale_ex : RRDCALC :=
  { rc0 with
    rrdset := some { chart0 with last_entry_t := 50 },
    update_every := 1 }

/-- Concrete chartless alarm whose own next_update is early. -/
def rc_nochart_ex : RRDCALC :=
  { rc0 with next_update := 5 }

/-- Concrete runnable alarm with no expressions, whose composed status
stays undefined. -/
def rc_runnable_ex : RRDCALC :=
  { rc0 with rrdcalc_flags := { rcflags0 with runnable := true } }

/-- Concrete two-entry log: the newer pending entry (unique_id 2) still
inside its delay, the older pending entry (unique_id 1) ready to
dispatch. -/
def log_scan_ex : List ALARM_ENTRY :=
  [{ entry0 with unique_id := 2, delay_up_to_timestamp := 100 },
   { entry0 with unique_id := 1, new_status := RRDCALC_STATUS.warning }]

end Netdata

namespace Netdata

/-- C3: for every pair of sub-expression statuses the composed status is:
critical when critical_status is raised (overriding warning); otherwise
clear when warning_status is clear, warning when warning_status is
raised; otherwise clear when critical_status is clear (status still
undefined); otherwise undefined. A sub-expression value maps to raised
iff it is a finite non-zero number, to clear iff it is finite zero, and
to undefined iff it is NaN or infinite. -/
theorem decide_status_and_value2status_spec :
    (∀ ws cs : RRDCALC_STATUS,
      decide_status ws cs =
        (if cs = .raised then .critical
         else if ws = .clear then .clear
         else if ws = .raised then .warning
         else if cs = .clear then .clear
         else .undefined)) ∧
    (∀ n : CNum,
      (rrdcalc_value2status n = .raised ↔ ∃ q : ℚ, n = .finite q ∧ q ≠ 0) ∧
      (rrdcalc_value2status n = .clear ↔ n = .finite 0) ∧
      (rrdcalc_value2status n = .undefined ↔ n = .nan ∨ n = .posInf ∨ n = .negInf)) := by
  constructor
  · intro ws cs
    cases ws <;> cases cs <;> rfl
  · intro n
    cases n with
    | nan => simp [rrdcalc_value2status]
    | posInf => simp [rrdcalc_value2status]
    | negInf => simp [rrdcalc_value2status]
    | finite q =>
        by_cases hq : q = 0 <;>
          simp [rrdcalc_value2status, hq]

/-- C2: for every entry with new_status at least clear, without the
no-clear-notification flag and not silenced, the dispatcher reaches the
notifier spawn iff the nearest older exec-run entry of the same alarm has
a different new_status, or no such entry exists and new_status is not
clear. Consequently the first entry ever notified for an alarm is never
clear, and an entry whose nearest older exec-run entry shares its
new_status is never notified. -/
theorem health_alarm_execute_notify_iff
    (ae : ALARM_ENTRY) (older : List ALARM_ENTRY) (now : Int) (spawn : Option Int)
    (hst : RRDCALC_STATUS.clear.code ≤ ae.new_status.code)
    (hnc : ae.flags.no_clear_notification = false)
    (hsi : ae.flags.silenced = false) :
    ((health_alarm_execute ae older now spawn).notified = true ↔
      (match find_prev_exec_run ae.alarm_id older with
       | some t => t.new_status ≠ ae.new_status
       | none => ae.new_status ≠ RRDCALC_STATUS.clear)) ∧
    (find_prev_exec_run ae.alarm_id older = none →
      (health_alarm_execute ae older now spawn).notified = true →
      ae.new_status ≠ RRDCALC_STATUS.clear) ∧
    (∀ t, find_prev_exec_run ae.alarm_id older = some t →
      t.new_status = ae.new_status →
      (health_alarm_execute ae older now spawn).notified = false) := by
  have hlt : ¬ (ae.new_status.code < RRDCALC_STATUS.clear.code) := by omega
  refine ⟨?_, ?_, ?_⟩
  · cases hfind : find_prev_exec_run ae.alarm_id older with
    | none =>
        by_cases hcl : ae.new_status = RRDCALC_STATUS.clear <;>
          cases spawn <;>
            simp [health_alarm_execute, hlt, hnc, hsi, hfind, hcl]
    | some t =>
        by_cases hts : t.new_status = ae.new_status <;>
          cases spawn <;>
            simp [health_alarm_execute, hlt, hnc, hsi, hfind, hts]
  · intro hfind hnot hcl
    cases spawn <;>
      simp [health_alarm_execute, hlt, hnc, hsi, hfind, hcl] at hnot
  · intro t hfind hts
    cases spawn <;>
      simp [health_alarm_execute, hlt, hnc, hsi, hfind, hts]

/-- C2 witness: a concrete warning entry with no prior exec-run entry is
notified. -/
theorem health_alarm_execute_notify_iff_witness :
    ((health_alarm_execute
        { entry0 with new_status := RRDCALC_STATUS.warning } [] 5 (some 0)).notified = true ↔
      (match find_prev_exec_run
          ({ entry0 with new_status := RRDCALC_STATUS.warning } : ALARM_ENTRY).alarm_id [] with
       | some t => t.new_status ≠ ({ entry0 with new_status := RRDCALC_STATUS.warning } : ALARM_ENTRY).new_status
       | none => ({ entry0 with new_status := RRDCALC_STATUS.warning } : ALARM_ENTRY).new_status ≠ RRDCALC_STATUS.clear)) ∧
    (find_prev_exec_run ({ entry0 with new_status := RRDCALC_STATUS.warning } : ALARM_ENTRY).alarm_id [] = none →
      (health_alarm_execute
        { entry0 with new_status := RRDCALC_STATUS.warning } [] 5 (some 0)).notified = true →
      ({ entry0 with new_status := RRDCALC_STATUS.warning } : ALARM_ENTRY).new_status ≠ RRDCALC_STATUS.clear) ∧
    (∀ t, find_prev_exec_run ({ entry0 with new_status := RRDCALC_STATUS.warning } : ALARM_ENTRY).alarm_id [] = some t →
      t.new_status = ({ entry0 with new_status := RRDCALC_STATUS.warning } : ALARM_ENTRY).new_status →
      (health_alarm_execute
        { entry0 with new_status := RRDCALC_STATUS.warning } [] 5 (some 0)).notified = false) :=
  health_alarm_execute_notify_iff
    { entry0 with new_status := RRDCALC_STATUS.warning } [] 5 (some 0)
    (by decide) (by rfl) (by rfl)

/-- C9: when the entry qualifies for notification but popen fails (spawn
outcome none), the dispatcher still leaves the entry with exec-run set and
exec_run_timestamp recorded, leaves exec_code and exec-failed unchanged,
and persists the entry; any newer same-alarm entry with the same
new_status (without no-clear-notification) that sees this entry as its
nearest older exec-run entry is then suppressed. -/
theorem health_alarm_execute_popen_failure
    (ae : ALARM_ENTRY) (older : List ALARM_ENTRY) (now : Int)
    (hst : RRDCALC_STATUS.clear.code ≤ ae.new_status.code)
    (hnc : ae.flags.no_clear_notification = false)
    (hsi : ae.flags.silenced = false)
    (hgo : match find_prev_exec_run ae.alarm_id older with
           | some t => t.new_status ≠ ae.new_status
           | none => ae.new_status ≠ RRDCALC_STATUS.clear) :
    ((health_alarm_execute ae older now none).ae.flags.exec_run = true) ∧
    ((health_alarm_execute ae older now none).ae.exec_run_timestamp = now) ∧
    ((health_alarm_execute ae older now none).ae.exec_code = ae.exec_code) ∧
    ((health_alarm_execute ae older now none).ae.flags.exec_failed = ae.flags.exec_failed) ∧
    ((health_alarm_execute ae older now none).persisted = true) ∧
    (∀ (be : ALARM_ENTRY) (older2 : List ALARM_ENTRY) (now2 : Int) (spawn2 : Option Int),
      be.alarm_id = ae.alarm_id → be.new_status = ae.new_status →
      be.flags.no_clear_notification = false →
      (health_alarm_execute be ((health_alarm_execute ae older now none).ae :: older2)
          now2 spawn2).notified = false) := by
  have hlt : ¬ (ae.new_status.code < RRDCALC_STATUS.clear.code) := by omega
  have hrun :
      health_alarm_execute ae older now none =
        ⟨{ ae with
            flags := { ae.flags with processed := true, exec_run := true },
            exec_run_timestamp := now }, true, true⟩ := by
    cases hfind : find_prev_exec_run ae.alarm_id older with
    | none =>
        rw [hfind] at hgo
        simp [health_alarm_execute, hlt, hnc, hsi, hfind, hgo]
    | some t =>
        rw [hfind] at hgo
        simp [health_alarm_execute, hlt, hnc, hsi, hfind, hgo]
  refine ⟨by rw [hrun], by rw [hrun], by rw [hrun], by rw [hrun], by rw [hrun], ?_⟩
  intro be older2 now2 spawn2 hbid hbst hbnc
  rw [hrun]
  by_cases hbl : be.new_status.code < RRDCALC_STATUS.clear.code
  · cases spawn2 <;> simp [health_alarm_execute, hbl]
  · have hfind2 :
        find_prev_exec_run be.alarm_id
          ({ ae with
              flags := { ae.flags with processed := true, exec_run := true },
              exec_run_timestamp := now } :: older2) =
          some { ae with
              flags := { ae.flags with processed := true, exec_run := true },
              exec_run_timestamp := now } := by
      simp [find_prev_exec_run, hbid]
    cases spawn2 <;>
      simp [health_alarm_execute, hbl, hbnc, hfind2, hbst]

/-- C9 witness: a concrete critical entry, popen failing, keeps exec-run
set with no exit code, and a newer critical entry of the same alarm is
suppressed. -/
theorem health_alarm_execute_popen_failure_witness :
    ((health_alarm_execute
        { entry0 with new_status := RRDCALC_STATUS.critical } [] 7 none).ae.flags.exec_run = true) ∧
    ((health_alarm_execute
        { entry0 with new_status := RRDCALC_STATUS.critical } [] 7 none).ae.exec_run_timestamp = 7) ∧
    ((health_alarm_execute
        { entry0 with new_status := RRDCALC_STATUS.critical } [] 7 none).ae.exec_code =
      ({ entry0 with new_status := RRDCALC_STATUS.critical } : ALARM_ENTRY).exec_code) ∧
    ((health_alarm_execute
        { entry0 with new_status := RRDCALC_STATUS.critical } [] 7 none).ae.flags.exec_failed =
      ({ entry0 with new_status := RRDCALC_STATUS.critical } : ALARM_ENTRY).flags.exec_failed) ∧
    ((health_alarm_execute
        { entry0 with new_status := RRDCALC_STATUS.critical } [] 7 none).persisted = true) ∧
    (∀ (be : ALARM_ENTRY) (older2 : List ALARM_ENTRY) (now2 : Int) (spawn2 : Option Int),
      be.alarm_id = ({ entry0 with new_status := RRDCALC_STATUS.critical } : ALARM_ENTRY).alarm_id →
      be.new_status = ({ entry0 with new_status := RRDCALC_STATUS.critical } : ALARM_ENTRY).new_status →
      be.flags.no_clear_notification = false →
      (health_alarm_execute be
          ((health_alarm_execute
              { entry0 with new_status := RRDCALC_STATUS.critical } [] 7 none).ae :: older2)
          now2 spawn2).notified = false) :=
  health_alarm_execute_popen_failure
    { entry0 with new_status := RRDCALC_STATUS.critical } [] 7
    (by decide) (by rfl) (by rfl) (by simp [find_prev_exec_run, entry0])

/-- C7: the silencer-file gate evaluated at the boundary: a file of size
exactly HEALTH_SILENCERS_MAX_FILE_LEN — inside the inclusive range the
spec states and the source's own out-of-range message names — is
rejected by the strict comparison and not parsed; in general the file is
parsed iff it exists, opens, and its size is non-zero and strictly below
the bound, and every other outcome is a logged error with the engine
continuing (the function returns a result in every case). -/
theorem health_silencers_init_boundary :
    health_silencers_init true ((HEALTH_SILENCERS_MAX_FILE_LEN : Nat) : Int) true =
      SilencersInitResult.sizeError ∧
    health_silencers_init true ((HEALTH_SILENCERS_MAX_FILE_LEN : Nat) : Int) true ≠
      SilencersInitResult.parsed ∧
    (∀ (ex : Bool) (size : Int) (op : Bool),
      health_silencers_init ex size op = SilencersInitResult.parsed ↔
        (ex = true ∧ op = true ∧ size ≠ 0 ∧
          size < ((HEALTH_SILENCERS_MAX_FILE_LEN : Nat) : Int))) := by
  refine ⟨by decide, by decide, ?_⟩
  intro ex size op
  by_cases hs : size ≠ 0 ∧ size < ((HEALTH_SILENCERS_MAX_FILE_LEN : Nat) : Int) <;>
    cases ex <;> cases op <;>
      simp [health_silencers_init, hs]

/-- C1: the eviction loop evaluated at a failing input: with max = 3 and
a four-entry log of count 4, the two oldest entries are detached; the
non-repeating one (unique_id 2) is freed twice with count decremented
twice, and the repeating one (unique_id 1), which the claim says is
skipped, is freed once with one further decrement, leaving count 1 where
the claimed bookkeeping (one free and one decrement per non-repeating
entry, repeating entries skipped) would leave count 3. -/
theorem health_alarm_log_evict_double_free :
    health_alarm_log_evict
        [{ entry0 with unique_id := 4 }, { entry0 with unique_id := 3 },
         { entry0 with unique_id := 2 },
         { entry0 with unique_id := 1, repeating := true }] 4 3 =
      ⟨[{ entry0 with unique_id := 4 }, { entry0 with unique_id := 3 }],
        1, [2, 2, 1]⟩ := by
  decide

/-- C10: a silencer that provides a context pattern or a family pattern
never matches an alarm with no linked chart — the conjunct for the
chart-derived field evaluates to no-match — so a store holding only that
silencer answers STYPE_NONE for the alarm. -/
theorem check_silenced_no_chart
    (s : SILENCER) (rc : RRDCALC) (host : Option String) (stype : SILENCE_TYPE)
    (hp : s.contexts_pattern ≠ none ∨ s.families_pattern ≠ none)
    (hch : rc.rrdset = none) :
    silencer_matches s rc host = false ∧
    check_silenced rc host ⟨[s], stype, false⟩ = SILENCE_TYPE.stype_none := by
  have hm : silencer_matches s rc host = false := by
    rcases hp with hp | hp
    · rcases hopt : s.contexts_pattern with _ | p
      · exact absurd hopt hp
      · simp [silencer_matches, silencer_field_match, hch, hopt]
    · rcases hopt : s.families_pattern with _ | p
      · exact absurd hopt hp
      · simp [silencer_matches, silencer_field_match, hch, hopt]
  exact ⟨hm, by simp [check_silenced, check_silenced_go, hm]⟩

/-- C10 witness: a silencer carrying only a context pattern does not
match a chartless alarm and the store answers STYPE_NONE. -/
theorem check_silenced_no_chart_witness :
    silencer_matches
        ⟨none, none, some (fun _ => true), none, none⟩ rc0 (some "h") = false ∧
    check_silenced rc0 (some "h")
        ⟨[⟨none, none, some (fun _ => true), none, none⟩],
          SILENCE_TYPE.silence_notifications, false⟩ = SILENCE_TYPE.stype_none :=
  check_silenced_no_chart ⟨none, none, some (fun _ => true), none, none⟩ rc0
    (some "h") SILENCE_TYPE.silence_notifications (Or.inl (by simp)) (by rfl)

/-- C6 counterexample: a repeating alarm currently warning whose
old_status is clear synthesizes, when a repetition is due, an entry whose
old_status is clear — rc.old_status — and not the alarm's current
status, contradicting the claim that old_status and new_status both
equal the current status. -/
theorem health_main_repeat_step_old_status_cex :
    ((health_main_repeat_step rc_repeat_ex 10 1).dispatched.map
        ALARM_ENTRY.old_status = some RRDCALC_STATUS.clear) ∧
    rc_repeat_ex.status = RRDCALC_STATUS.warning ∧
    ¬ ((health_main_repeat_step rc_repeat_ex 10 1).dispatched.map
        ALARM_ENTRY.old_status = some rc_repeat_ex.status) := by
  decide

/-- C6 amended: for every repeating alarm currently warning or critical,
with repeat_every selected from warn_repeat_every or crit_repeat_every
accordingly, if repeat_every is positive and last_repeat + repeat_every
has passed, the repeating phase sets last_repeat to now and synthesizes
an entry whose new_status is the alarm's current status and whose
old_status is the alarm's stored old_status (the status before its last
transition), with last_repeat copied; the entry is handed to the
dispatcher without being linked into the persistent log and freed
afterwards. -/
theorem health_main_repeat_step_spec
    (rc : RRDCALC) (now : Int) (uid : Nat) (re : Int)
    (hrep : rrdcalc_isrepeating rc = true)
    (hwc : rc.status = RRDCALC_STATUS.warning ∨ rc.status = RRDCALC_STATUS.critical)
    (hre : re = if rc.status = RRDCALC_STATUS.warning then rc.warn_repeat_every
                else rc.crit_repeat_every)
    (hpos : 0 < re) (hdue : rc.last_repeat + re ≤ now) :
    (health_main_repeat_step rc now uid).rc.last_repeat = now ∧
    (∃ ae, (health_main_repeat_step rc now uid).dispatched = some ae ∧
      ae.new_status = rc.status ∧ ae.old_status = rc.old_status ∧
      ae.last_repeat = now ∧ ae.alarm_id = rc.id) ∧
    (health_main_repeat_step rc now uid).linked = false ∧
    (health_main_repeat_step rc now uid).freed = true := by
  have hsel :
      (if rrdcalc_isrepeating rc = true then
        if rc.status = RRDCALC_STATUS.warning then rc.warn_repeat_every
        else if rc.status = RRDCALC_STATUS.critical then rc.crit_repeat_every
        else 0
      else 0) = re := by
    rcases hwc with h | h <;> simp [hrep, h, hre]
  simp only [health_main_repeat_step, hsel]
  rw [if_pos (And.intro hpos hdue)]
  exact ⟨rfl, ⟨_, rfl, rfl, rfl, rfl, rfl⟩, rfl, rfl⟩

/-- C6 witness: the concrete repeating warning alarm at now = 10 gets
last_repeat 10 and dispatches an unlinked, afterwards freed entry with
new_status warning and old_status clear. -/
theorem health_main_repeat_step_spec_witness :
    (health_main_repeat_step rc_repeat_ex 10 1).rc.last_repeat = 10 ∧
    (∃ ae, (health_main_repeat_step rc_repeat_ex 10 1).dispatched = some ae ∧
      ae.new_status = rc_repeat_ex.status ∧ ae.old_status = rc_repeat_ex.old_status ∧
      ae.last_repeat = 10 ∧ ae.alarm_id = rc_repeat_ex.id) ∧
    (health_main_repeat_step rc_repeat_ex 10 1).linked = false ∧
    (health_main_repeat_step rc_repeat_ex 10 1).freed = true :=
  health_main_repeat_step_spec rc_repeat_ex 10 1 5 (by decide)
    (Or.inl (by decide)) (by decide) (by decide) (by decide)

/-- C5 counterexample: two failing cases of the claim at concrete
inputs. The alarm rc_stale_ex sits on a chart whose last retained entry
is at time 50 while now is 100, so retention does not cover
[now - update_every, now + update_every], yet the predicate returns true
— the stale half of the window check is commented out in the source.
The chartless alarm rc_nochart_ex returns false without narrowing
next_run (20) to its own next_update (5) — only the
next_update-in-the-future branch adjusts next_run. -/
theorem rrdcalc_isrunnable_cex :
    ((rrdcalc_isrunnable rc_stale_ex 100 200).1 = true) ∧
    (rc_stale_ex.rrdset.map (fun st => st.last_entry_t) = some 50) ∧
    (rc_stale_ex.rrdset.map (fun st => st.update_every) = some 1) ∧
    (rrdcalc_isrunnable rc_nochart_ex 10 20 = (false, 20)) ∧
    rc_nochart_ex.next_update = 5 ∧
    ¬ ((20 : Int) ≤ rc_nochart_ex.next_update) := by
  decide

/-- C5 amended: the runnability predicate returns false exactly when one
of these holds — no linked chart; next_update still in the future;
update_every zero; chart obsolete; chart not enabled; chart not yet
collected twice (no collection time or fewer than two completed
collections); chart retention starting only after now plus the chart
update period (the stale half of the window check is commented out in
the source and absent); or, with a database lookup configured, the
single point now + before + after falling outside the retention bounds
padded by the chart update period. It narrows next_run to the alarm's
next_update only in the next_update-in-the-future case, and only when
that improves next_run; every other false case leaves next_run
untouched. -/
theorem rrdcalc_isrunnable_spec (rc : RRDCALC) (now next_run : Int) :
    ((rrdcalc_isrunnable rc now next_run).1 = true ↔
      ∃ st, rc.rrdset = some st ∧
        rc.next_update ≤ now ∧
        rc.update_every ≠ 0 ∧
        st.obsolete = false ∧
        st.enabled = true ∧
        st.last_collected_time ≠ 0 ∧
        2 ≤ st.counter_done ∧
        st.first_entry_t ≤ now + st.update_every ∧
        (rc.db_lookup = true →
          (st.first_entry_t ≤ now + rc.before + rc.after + st.update_every ∧
           now + rc.before + rc.after - st.update_every ≤ st.last_entry_t))) ∧
    ((rrdcalc_isrunnable rc now next_run).2 =
      if rc.rrdset ≠ none ∧ now < rc.next_update ∧ rc.next_update < next_run
      then rc.next_update else next_run) := by
  constructor
  · cases hset : rc.rrdset with
    | none => simp [rrdcalc_isrunnable, hset]
    | some st =>
        simp only [rrdcalc_isrunnable, hset]
        split_ifs with h1 h2 h3 h4 h5 h6 h7 h8
        · constructor
          · intro h; simp at h
          · rintro ⟨st2, hst2, hnu, -⟩
            cases hst2; omega
        · constructor
          · intro h; simp at h
          · rintro ⟨st2, hst2, -, hue, -⟩
            exact hue h2
        · constructor
          · intro h; simp at h
          · rintro ⟨st2, hst2, -, -, hob, -⟩
            cases hst2; simp [h3] at hob
        · constructor
          · intro h; simp at h
          · rintro ⟨st2, hst2, -, -, -, hen, -⟩
            cases hst2; simp [h4] at hen
        · constructor
          · intro h; simp at h
          · rintro ⟨st2, hst2, -, -, -, -, hlc, hcd, -⟩
            cases hst2
            rcases h5 with h5 | h5
            · exact hlc h5
            · omega
        · constructor
          · intro h; simp at h
          · rintro ⟨st2, hst2, -, -, -, -, -, -, hfe, -⟩
            cases hst2; omega
        · constructor
          · intro h; simp at h
          · rintro ⟨st2, hst2, -, -, -, -, -, -, -, hdb⟩
            cases hst2
            rcases hdb h7 with ⟨hd1, hd2⟩
            rcases h8 with h8 | h8 <;> omega
        · constructor
          · intro _
            push_neg at h5 h8
            refine ⟨st, rfl, by omega, h2, by simpa using h3, by simpa using h4,
              h5.1, by omega, by omega, fun _ => ⟨by omega, by omega⟩⟩
          · intro _; rfl
        · constructor
          · intro _
            push_neg at h5
            refine ⟨st, rfl, by omega, h2, by simpa using h3, by simpa using h4,
              h5.1, by omega, by omega, fun hdb => absurd hdb h7⟩
          · intro _; rfl
  · cases hset : rc.rrdset with
    | none => simp [rrdcalc_isrunnable, hset]
    | some st =>
        by_cases h1 : now < rc.next_update
        · by_cases hn : rc.next_update < next_run <;>
            simp [rrdcalc_isrunnable, hset, h1, hn]
        · have hcond :
              ¬(some st ≠ none ∧ now < rc.next_update ∧
                rc.next_update < next_run) := by
            rintro ⟨-, h, -⟩; exact h1 h
          rw [if_neg hcond]
          simp only [rrdcalc_isrunnable, hset]
          rw [if_neg h1]
          split_ifs <;> rfl

/-- C8 counterexample: a runnable alarm whose warning expression fails
this tick while the composed status stays equal to its current status
appends no entry and keeps its status, yet its rrdcalc_flags change —
the warn-error bit is set — so the resulting alarm differs from the
claimed only-last_updated-and-next_update update. -/
theorem health_main_decide_step_flags_cex :
    ((health_main_decide_step rc_evalfail_ex 5 100 1).rc.status =
      rc_evalfail_ex.status) ∧
    ((health_main_decide_step rc_evalfail_ex 5 100 1).entry = none) ∧
    ((health_main_decide_step rc_evalfail_ex 5 100 1).rc.rrdcalc_flags.warn_error =
      true) ∧
    (rc_evalfail_ex.rrdcalc_flags.warn_error = false) ∧
    ((health_main_decide_step rc_evalfail_ex 5 100 1).rc ≠
      { rc_evalfail_ex with
        last_updated := 5,
        next_update := 5 + rc_evalfail_ex.update_every }) := by
  decide

/-- C8 amended: for every alarm flagged runnable and not disabled whose
composed status for the tick equals its current status, the decide step
appends no log entry and leaves status, old_status, last_status_change
and all hysteresis delay fields unchanged; it updates last_updated to
now, next_update to now + update_every, refreshes the warn-error and
crit-error flags from this tick's expression evaluations, and narrows
next_run to the alarm's next update when that improves it. -/
theorem health_main_decide_step_nochange
    (rc : RRDCALC) (now next_run : Int) (uid : Nat)
    (hrun : rc.rrdcalc_flags.runnable = true)
    (hdis : rc.rrdcalc_flags.disabled = false)
    (hstat : decide_status (warn_status_of rc) (crit_status_of rc) = rc.status) :
    health_main_decide_step rc now next_run uid =
      ⟨{ rc with
          rrdcalc_flags := eval_flags_of rc,
          last_updated := now,
          next_update := now + rc.update_every },
        none,
        if now + rc.update_every < next_run then now + rc.update_every
        else next_run⟩ := by
  simp [health_main_decide_step, hrun, hdis, hstat]

/-- C8 witness: the concrete runnable alarm with no expressions keeps
everything but last_updated, next_update and the refreshed error flags. -/
theorem health_main_decide_step_nochange_witness :
    health_main_decide_step rc_runnable_ex 5 100 1 =
      ⟨{ rc_runnable_ex with
          rrdcalc_flags := eval_flags_of rc_runnable_ex,
          last_updated := 5,
          next_update := 5 + rc_runnable_ex.update_every },
        none,
        if (5 : Int) + rc_runnable_ex.update_every < 100 then
          5 + rc_runnable_ex.update_every
        else 100⟩ :=
  health_main_decide_step_nochange rc_runnable_ex 5 100 1
    (by rfl) (by rfl) (by decide)

/-- Folding min over a list never rises above the accumulator. -/
theorem scan_foldl_min_le_init : ∀ (l : List Nat) (fw : Nat), l.foldl min fw ≤ fw
  | [], fw => le_refl fw
  | x :: rest, fw =>
      le_trans (scan_foldl_min_le_init rest (min fw x)) (min_le_left fw x)

/-- Folding min over values at least c, from an accumulator at least c,
stays at least c. -/
theorem scan_le_foldl_min (c : Nat) : ∀ (l : List Nat) (fw : Nat), c ≤ fw →
    (∀ x ∈ l, c ≤ x) → c ≤ l.foldl min fw
  | [], _, hfw, _ => hfw
  | x :: rest, fw, hfw, hl =>
      scan_le_foldl_min c rest (min fw x)
        (le_min hfw (hl x (List.mem_cons_self x rest)))
        (fun y hy => hl y (List.mem_cons_of_mem x hy))

/-- Every id collected by scanned_pending_ids lies in the scanned range:
it is at least the cursor. -/
theorem scanned_pending_ids_ge (cursor : Nat) (log : List ALARM_ENTRY) :
    ∀ x ∈ scanned_pending_ids cursor log, cursor ≤ x := by
  intro x hx
  unfold scanned_pending_ids at hx
  obtain ⟨ae, hae, hid⟩ := List.mem_map.mp hx
  have hmem := List.mem_of_mem_filter hae
  have hp := List.mem_takeWhile_imp hmem
  simp only [decide_eq_true_eq] at hp
  omega

/-- The first_waiting computed by the scan walk is the min-fold of the
starting value with the unique ids of the pending non-repeating entries
in the scanned range. -/
theorem scan_go_snd (now : Int) (cursor : Nat) (spawn : Nat → Option Int) :
    ∀ (log : List ALARM_ENTRY) (fw : Nat),
      (scan_go now cursor spawn log fw).2 =
        (scanned_pending_ids cursor log).foldl min fw := by
  intro log
  induction log with
  | nil => intro fw; simp [scan_go, scanned_pending_ids]
  | cons ae rest ih =>
      intro fw
      by_cases h1 : ae.unique_id < cursor
      · have hp : ¬ (cursor ≤ ae.unique_id) := by omega
        simp [scan_go, scanned_pending_ids, List.takeWhile_cons, h1, hp]
      · have hp : (cursor ≤ ae.unique_id) := by omega
        cases hb : (!ae.repeating && !ae.flags.processed && !ae.flags.updated) with
        | true =>
            by_cases hd : ae.delay_up_to_timestamp ≤ now <;>
              simp [scan_go, scanned_pending_ids, List.takeWhile_cons, h1, hp,
                hb, hd, ih]
        | false =>
            simp [scan_go, scanned_pending_ids, List.takeWhile_cons, h1, hp,
              hb, ih]

/-- C4 counterexample: on the concrete log log_scan_ex with cursor 0 and
now 10, the entry with unique_id 1 is dispatched (and so is processed
afterwards) while the entry with unique_id 2 stays pending inside its
delay; the new cursor is 1 — the unique_id of the dispatched entry —
although the smallest (indeed only) still-pending unique_id after the
scan is 2, so the cursor does not equal the smallest pending id. -/
theorem health_alarm_log_scan_cursor_cex :
    ((health_alarm_log_scan log_scan_ex 0 10 (fun _ => some 0)).2 = 1) ∧
    (pending_ids (health_alarm_log_scan log_scan_ex 0 10 (fun _ => some 0)).1 =
      [2]) ∧
    ((health_alarm_log_scan log_scan_ex 0 10 (fun _ => some 0)).2 ∉
      pending_ids (health_alarm_log_scan log_scan_ex 0 10 (fun _ => some 0)).1) := by
  decide

/-- C4 amended: after a scan the cursor equals the minimum of the head
unique_id (0 on an empty log) and the unique ids of the non-repeating
entries in the scanned range that were pending — neither processed nor
updated — at the start of the scan, including entries dispatched during
this very scan; and whenever the previous cursor is at most the head
unique_id (the invariant head insertion of fresh, larger ids maintains),
the new cursor is again between the previous cursor and the head
unique_id, so the cursor never decreases across ticks. -/
theorem health_alarm_log_scan_cursor_spec
    (log : List ALARM_ENTRY) (cursor : Nat) (now : Int) (spawn : Nat → Option Int)
    (hinv : cursor ≤ scan_init_fw log) :
    ((health_alarm_log_scan log cursor now spawn).2 =
      (scanned_pending_ids cursor log).foldl min (scan_init_fw log)) ∧
    (cursor ≤ (health_alarm_log_scan log cursor now spawn).2) ∧
    ((health_alarm_log_scan log cursor now spawn).2 ≤ scan_init_fw log) := by
  have h1 := scan_go_snd now cursor spawn log (scan_init_fw log)
  refine ⟨h1, ?_, ?_⟩
  · rw [health_alarm_log_scan, h1]
    exact scan_le_foldl_min cursor _ _ hinv (scanned_pending_ids_ge cursor log)
  · rw [health_alarm_log_scan, h1]
    exact scan_foldl_min_le_init _ _

/-- C4 witness: the amended characterization on the concrete two-entry
log with cursor 0. -/
theorem health_alarm_log_scan_cursor_spec_witness :
    ((health_alarm_log_scan log_scan_ex 0 10 (fun _ => none)).2 =
      (scanned_pending_ids 0 log_scan_ex).foldl min (scan_init_fw log_scan_ex)) ∧
    (0 ≤ (health_alarm_log_scan log_scan_ex 0 10 (fun _ => none)).2) ∧
    ((health_alarm_log_scan log_scan_ex 0 10 (fun _ => none)).2 ≤
      scan_init_fw log_scan_ex) :=
  health_alarm_log_scan_cursor_spec log_scan_ex 0 10 (fun _ => none) (by decide)

end Netdata
